import Mathlib

/-!
Shallow embedding of the alloy-crm-demo tutorial application:
two Next.js API route handlers (`pages/api/contacts.js`,
`pages/api/get-jwt-token.js`) and the browser-side components
(`CreateContact.js`, `ContactList.js`, `page.js`).

Modelling conventions:
- JSON values are the inductive `Json`; a vendor response body that is not
  valid JSON is represented as `Json.str raw`, matching axios's default
  behaviour of silently keeping the raw string when `JSON.parse` fails.
- An outbound axios call is recorded as an `AxiosReq`; the network's
  behaviour is a function `AxiosReq → VendorOutcome`.  `axiosResult` models
  axios's promise: it rejects (`Except.error`) on a transport failure or on
  a response status outside 2xx (the default `validateStatus`), and
  resolves with the parsed body otherwise.
- A handler returns the HTTP response it writes together with the list of
  outbound calls it performed, so that "no outbound vendor call is made"
  is the statement that this list is empty.
- JavaScript truthiness of `req.query.connectionId` (absent → undefined →
  falsy; present-but-empty → "" → falsy) is captured by `jsTruthy`.
- `res.json({ token: response.data.token })` with a missing `token` field
  serialises to `{}` because `JSON.stringify` drops `undefined`; this is
  `objDropUndefined`.
-/

namespace AlloyCrm

/-- JSON values (`null`, booleans, numbers, strings, arrays, objects). -/
inductive Json where
  | null
  | bool (b : Bool)
  | num (n : Int)
  | str (s : String)
  | arr (elems : List Json)
  | obj (fields : List (String × Json))

/-- JavaScript property access `j.key` on a parsed body: a `some` result is
the field's value, `none` is `undefined` (missing field or non-object). -/
def jsonGet : Json → String → Option Json
  | .obj fields, key => (fields.find? (fun p => p.1 = key)).map Prod.snd
  | _, _ => none

/-- `JSON.stringify` of a one-key object drops the key when its value is
`undefined`: `{ token: undefined }` serialises as `{}`. -/
def objDropUndefined (key : String) : Option Json → Json
  | none => .obj []
  | some v => .obj [(key, v)]

/-- An outbound axios call: HTTP method, URL, `Authorization` header value,
and optional JSON payload. -/
structure AxiosReq where
  method : String
  url : String
  authHeader : String
  body : Option Json

/-- What the network does with an outbound call: a transport failure, or an
HTTP response with a status code and a (parsed) body. -/
inductive VendorOutcome where
  | networkError
  | reply (status : Nat) (data : Json)

/-- Axios promise semantics with the default `validateStatus`: reject on
transport failure or a status outside `[200, 300)`, otherwise resolve with
the response data. -/
def axiosResult : VendorOutcome → Except Unit Json
  | .networkError => .error ()
  | .reply status data =>
      if 200 ≤ status ∧ status < 300 then .ok data else .error ()

/-- A response body written by a handler: `res.json(. . .)` or the plain-text
`res.end(. . .)`. -/
inductive ResBody where
  | json (j : Json)
  | text (s : String)

/-- The HTTP response a handler writes: status, headers (a header value set
by `res.setHeader(name, array)` is kept as the list of values), body. -/
structure HttpResponse where
  status : Nat
  headers : List (String × List String)
  body : ResBody

/-- The incoming Next.js API request as the handlers consume it:
`req.method`, `req.query.connectionId` (absent = `none`), `req.body`. -/
structure ApiRequest where
  method : String
  connectionId : Option String
  body : Json

/-- JavaScript truthiness of `req.query.connectionId`: `undefined` and the
empty string are falsy, every other string is truthy. -/
def jsTruthy : Option String → Bool
  | none => false
  | some s => !(s = "")

/-- URL of the vendor CRM contacts endpoint, with the connection id as a
query parameter (from `pages/api/contacts.js`). -/
def contactsVendorUrl (connectionId : String) : String :=
  "https://embedded.runalloy.com/2023-12/one/crm/contacts?connectionId=" ++ connectionId

/-- The outbound read request built in the GET branch of the contacts
handler: bearer credential, no payload. -/
def contactsGetOutbound (apiKey connectionId : String) : AxiosReq :=
  { method := "GET"
    url := contactsVendorUrl connectionId
    authHeader := "bearer " ++ apiKey
    body := none }

/-- The outbound write request built in the POST branch of the contacts
handler: bearer credential, the incoming `req.body` forwarded as payload. -/
def contactsPostOutbound (apiKey connectionId : String) (reqBody : Json) : AxiosReq :=
  { method := "POST"
    url := contactsVendorUrl connectionId
    authHeader := "bearer " ++ apiKey
    body := some reqBody }

/-- `res.status(400).json({ error: 'ConnectionId is required' })`. -/
def missingConnectionResponse : HttpResponse :=
  { status := 400
    headers := []
    body := .json (.obj [("error", .str "ConnectionId is required")]) }

/-- `res.status(500).json({ error: 'Error fetching contacts' })`. -/
def fetchErrorResponse : HttpResponse :=
  { status := 500
    headers := []
    body := .json (.obj [("error", .str "Error fetching contacts")]) }

/-- `res.status(500).json({ error: 'Error creating contact' })`. -/
def createErrorResponse : HttpResponse :=
  { status := 500
    headers := []
    body := .json (.obj [("error", .str "Error creating contact")]) }

/-- The default branch of the contacts handler:
`res.setHeader('Allow', ['GET', 'POST'])` then
`res.status(405).end('Method <m> Not Allowed')`. -/
def methodNotAllowedResponse (method : String) : HttpResponse :=
  { status := 405
    headers := [("Allow", ["GET", "POST"])]
    body := .text ("Method " ++ method ++ " Not Allowed") }

/-- The handler of `pages/api/contacts.js`.  It first rejects a falsy
`connectionId` with a 400, then switches on `req.method`: GET forwards a
read to the vendor and echoes `response.data` (status 200 is the Next.js
default for `res.json`); POST forwards `req.body` and echoes the reply;
any other verb gets the 405 response.  Vendor failures (axios rejections)
are caught and mapped to the fixed 500 bodies.  The second component of
the result is the list of outbound calls performed. -/
def contactsHandler (apiKey : String) (vendor : AxiosReq → VendorOutcome)
    (req : ApiRequest) : HttpResponse × List AxiosReq :=
  match req.connectionId with
  | none => (missingConnectionResponse, [])
  | some cid =>
    if cid = "" then (missingConnectionResponse, [])
    else if req.method = "GET" then
      let outbound := contactsGetOutbound apiKey cid
      match axiosResult (vendor outbound) with
      | .ok data => ({ status := 200, headers := [], body := .json data }, [outbound])
      | .error _ => (fetchErrorResponse, [outbound])
    else if req.method = "POST" then
      let outbound := contactsPostOutbound apiKey cid req.body
      match axiosResult (vendor outbound) with
      | .ok data => ({ status := 200, headers := [], body := .json data }, [outbound])
      | .error _ => (createErrorResponse, [outbound])
    else
      (methodNotAllowedResponse req.method, [])

/-- URL of the vendor token endpoint (from `pages/api/get-jwt-token.js`). -/
def tokenVendorUrl (userId : String) : String :=
  "https://embedded.runalloy.com/2023-12/users/" ++ userId ++ "/token"

/-- The outbound read request built by the token handler. -/
def tokenOutbound (apiKey userId : String) : AxiosReq :=
  { method := "GET"
    url := tokenVendorUrl userId
    authHeader := "Bearer " ++ apiKey
    body := none }

/-- `res.status(500).json({ error: 'Error generating JWT token' })`. -/
def tokenErrorResponse : HttpResponse :=
  { status := 500
    headers := []
    body := .json (.obj [("error", .str "Error generating JWT token")]) }

/-- The handler of `pages/api/get-jwt-token.js`.  It never inspects the
incoming request: it performs one vendor read, and on resolution answers
`200 { token: response.data.token }` (with the `undefined`-dropping
serialisation), on rejection the fixed 500 body. -/
def getJwtTokenHandler (apiKey userId : String) (vendor : AxiosReq → VendorOutcome)
    (_req : ApiRequest) : HttpResponse × List AxiosReq :=
  let outbound := tokenOutbound apiKey userId
  match axiosResult (vendor outbound) with
  | .ok data =>
      ({ status := 200
         headers := []
         body := .json (objDropUndefined "token" (jsonGet data "token")) }, [outbound])
  | .error _ => (tokenErrorResponse, [outbound])

/-- Form state of the `CreateContact` component: the two controlled
inputs. -/
structure CreateContactState where
  firstName : String
  lastName : String

/-- State of the `ContactList` component.  `contacts` is whatever
`response.data.contacts` evaluated to (`none` models `undefined`); the
initial `useState([])` value is `some (.arr [])`. -/
structure ContactListState where
  contacts : Option Json
  isLoading : Bool

/-- The browser-side POST issued by `CreateContact.handleSubmit`:
`axios.post('/api/contacts?connectionId=' + id, { firstName, lastName })`. -/
def createContactRequest (connectionId : String) (s : CreateContactState) : AxiosReq :=
  { method := "POST"
    url := "/api/contacts?connectionId=" ++ connectionId
    authHeader := ""
    body := some (.obj [("firstName", .str s.firstName), ("lastName", .str s.lastName)]) }

/-- The browser-side GET issued by `ContactList.fetchContacts`. -/
def listContactsRequest (connectionId : String) : AxiosReq :=
  { method := "GET"
    url := "/api/contacts?connectionId=" ++ connectionId
    authHeader := ""
    body := none }

/-- `CreateContact.handleSubmit`: with a falsy connection id it only logs
and performs no call; otherwise it posts the two fields, clears both on
success, and leaves the form untouched on failure (the catch branch only
logs).  `gateway` is the HTTP behaviour of the local API route. -/
def handleSubmit (connectionId : String) (gateway : AxiosReq → VendorOutcome)
    (s : CreateContactState) : CreateContactState × List AxiosReq :=
  if connectionId = "" then (s, [])
  else
    let outbound := createContactRequest connectionId s
    match axiosResult (gateway outbound) with
    | .ok _ => ({ firstName := "", lastName := "" }, [outbound])
    | .error _ => (s, [outbound])

/-- `ContactList.fetchContacts`: guarded by `if (connectionId)`; on success
stores `response.data.contacts` and clears the loading flag; on failure the
catch branch only logs and clears the loading flag, leaving `contacts`
untouched. -/
def fetchContacts (connectionId : String) (gateway : AxiosReq → VendorOutcome)
    (s : ContactListState) : ContactListState × List AxiosReq :=
  if connectionId = "" then (s, [])
  else
    let outbound := listContactsRequest connectionId
    match axiosResult (gateway outbound) with
    | .ok data => ({ contacts := jsonGet data "contacts", isLoading := false }, [outbound])
    | .error _ => ({ s with isLoading := false }, [outbound])

/-- What the `ContactList` component renders. -/
inductive ContactListView where
  | prompt
  | loading
  | listing (entries : List Json)
  | noContacts
  | renderError

/-- The render function of `ContactList.js`: without a connection id it
returns the "Please complete Step 1" prompt; while loading, the loading
indicator; otherwise the list when `contacts.length > 0`, else the
"No contacts found" message.  A non-array `contacts` value (possible only
after a malformed gateway reply) makes the JSX evaluation fail, abstracted
as `renderError`. -/
def renderContactList (connectionId : String) (s : ContactListState) : ContactListView :=
  if connectionId = "" then .prompt
  else if s.isLoading then .loading
  else
    match s.contacts with
    | some (.arr entries) =>
        if 0 < entries.length then .listing entries else .noContacts
    | _ => .renderError

/-- `page.js` renders `<ContactList/>` only under
`{connectionId && . . .}`: the component is not even mounted while the
shell-level `connectionId` state (initially the empty string) is falsy. -/
def homeMountsContactList (connectionId : String) : Bool :=
  !(connectionId = "")

/-- Claim C1: for every request to the contacts handler whose
`connectionId` query parameter is absent or empty, the handler returns the
400 response with body `error: ConnectionId is required` and performs no
outbound vendor call, regardless of the HTTP method. -/
theorem contacts_missing_connection_400 (apiKey : String)
    (vendor : AxiosReq → VendorOutcome) (req : ApiRequest)
    (h : jsTruthy req.connectionId = false) :
    contactsHandler apiKey vendor req = (missingConnectionResponse, []) := by
  obtain ⟨m, cid, b⟩ := req
  cases cid with
  | none => rfl
  | some s =>
      have hs : s = "" := by simpa [jsTruthy] using h
      subst hs
      rfl

/-- Witness for C1 at a concrete request (a DELETE with the parameter
absent, against a vendor that would answer any call). -/
theorem contacts_missing_connection_400_witness :
    jsTruthy (none : Option String) = false ∧
    contactsHandler "secret-key" (fun _ => .reply 200 (.obj []))
        { method := "DELETE", connectionId := none, body := .obj [] } =
      (missingConnectionResponse, []) :=
  ⟨rfl, contacts_missing_connection_400 "secret-key" (fun _ => .reply 200 (.obj []))
      { method := "DELETE", connectionId := none, body := .obj [] } rfl⟩

/-- Claim C2: with a non-empty `connectionId`, a successful GET echoes the
vendor's response body verbatim (and performs exactly the one outbound read
with the id in the URL), and a successful POST forwards `req.body` as the
outbound payload and echoes the created record verbatim. -/
theorem contacts_passthrough (apiKey cid : String)
    (vendor : AxiosReq → VendorOutcome) (reqBody data : Json) (status : Nat)
    (hcid : cid ≠ "") (hok : 200 ≤ status ∧ status < 300) :
    (vendor (contactsGetOutbound apiKey cid) = .reply status data →
      contactsHandler apiKey vendor { method := "GET", connectionId := some cid, body := reqBody } =
        ({ status := 200, headers := [], body := .json data },
         [contactsGetOutbound apiKey cid])) ∧
    (vendor (contactsPostOutbound apiKey cid reqBody) = .reply status data →
      contactsHandler apiKey vendor { method := "POST", connectionId := some cid, body := reqBody } =
        ({ status := 200, headers := [], body := .json data },
         [contactsPostOutbound apiKey cid reqBody])) ∧
    (contactsPostOutbound apiKey cid reqBody).body = some reqBody := by
  refine ⟨fun hv => ?_, fun hv => ?_, rfl⟩
  · simp [contactsHandler, hcid, hv, axiosResult, hok]
  · simp [contactsHandler, hcid, hv, axiosResult, hok]

/-- Witness for C2: a concrete vendor returning a one-contact collection to
the GET and echoing a created record to the POST. -/
theorem contacts_passthrough_witness :
    ("c1" : String) ≠ "" ∧ (200 ≤ 200 ∧ 200 < 300) ∧
    contactsHandler "k" (fun _ => .reply 200 (.str "payload"))
        { method := "GET", connectionId := some "c1", body := .null } =
      ({ status := 200, headers := [], body := .json (.str "payload") },
       [contactsGetOutbound "k" "c1"]) :=
  ⟨by decide, by decide,
   (contacts_passthrough "k" "c1" (fun _ => .reply 200 (.str "payload"))
      .null (.str "payload") 200 (by decide) (by decide)).1 rfl⟩

/-- Claim C3 counterexample: a DELETE request with the `connectionId`
parameter absent is an HTTP verb other than GET or POST, yet the handler
answers 400 (the missing-connection error), not 405. -/
theorem contacts_delete_without_connection_not_405 :
    (("DELETE" : String) ≠ "GET" ∧ ("DELETE" : String) ≠ "POST") ∧
    (contactsHandler "k" (fun _ => .networkError)
        { method := "DELETE", connectionId := none, body := .obj [] }).1.status = 400 ∧
    (contactsHandler "k" (fun _ => .networkError)
        { method := "DELETE", connectionId := none, body := .obj [] }).1.status ≠ 405 :=
  ⟨⟨by decide, by decide⟩, rfl, by decide⟩

/-- Claim C3 as amended: for every contacts request carrying a non-empty
`connectionId` and an HTTP verb other than GET and POST, the response is
405 with an `Allow` header advertising exactly GET and POST, and no
outbound call is made. -/
theorem contacts_unknown_verb_405 (apiKey cid m : String)
    (vendor : AxiosReq → VendorOutcome) (b : Json)
    (hcid : cid ≠ "") (hm1 : m ≠ "GET") (hm2 : m ≠ "POST") :
    contactsHandler apiKey vendor { method := m, connectionId := some cid, body := b } =
      (methodNotAllowedResponse m, []) ∧
    (methodNotAllowedResponse m).status = 405 ∧
    (methodNotAllowedResponse m).headers = [("Allow", ["GET", "POST"])] := by
  refine ⟨?_, rfl, rfl⟩
  simp [contactsHandler, hcid, hm1, hm2]

/-- Witness for the amended C3 at a concrete PATCH request. -/
theorem contacts_unknown_verb_405_witness :
    (("c1" : String) ≠ "" ∧ ("PATCH" : String) ≠ "GET" ∧ ("PATCH" : String) ≠ "POST") ∧
    contactsHandler "k" (fun _ => .networkError)
        { method := "PATCH", connectionId := some "c1", body := .null } =
      (methodNotAllowedResponse "PATCH", []) :=
  ⟨⟨by decide, by decide, by decide⟩,
   (contacts_unknown_verb_405 "k" "c1" "PATCH" (fun _ => .networkError) .null
      (by decide) (by decide) (by decide)).1⟩

/-- Claim C9: the contacts handler is stateless and GET is idempotent: the
result of a GET invocation is a function of the connection id and the
vendor behaviour alone (in particular it is independent of the request
body), so repeated invocations against an unchanged vendor return the same
collection. -/
theorem contacts_get_idempotent (apiKey : String)
    (vendor : AxiosReq → VendorOutcome) (cid : Option String) (b1 b2 : Json) :
    contactsHandler apiKey vendor { method := "GET", connectionId := cid, body := b1 } =
    contactsHandler apiKey vendor { method := "GET", connectionId := cid, body := b2 } := by
  cases cid with
  | none => rfl
  | some s => by_cases hs : s = "" <;> simp [contactsHandler, hs]

/-- Claim C10: the token handler never inspects the incoming request — all
requests (whatever the method, query or body) get identical treatment, and
its status is never 405. -/
theorem jwt_method_agnostic (apiKey userId : String)
    (vendor : AxiosReq → VendorOutcome) (r1 r2 : ApiRequest) :
    getJwtTokenHandler apiKey userId vendor r1 =
      getJwtTokenHandler apiKey userId vendor r2 ∧
    (getJwtTokenHandler apiKey userId vendor r1).1.status ≠ 405 := by
  constructor
  · rfl
  · unfold getJwtTokenHandler
    rcases hres : axiosResult (vendor (tokenOutbound apiKey userId)) with _ | data <;>
      simp [hres, tokenErrorResponse]

/-- Claim C4: whenever the vendor token call succeeds (a 2xx reply whose
body carries a `token` field), the token handler answers 200 with a `token`
field equal to the vendor-supplied value, untransformed. -/
theorem jwt_token_passthrough (apiKey userId : String)
    (vendor : AxiosReq → VendorOutcome) (req : ApiRequest)
    (status : Nat) (data tok : Json)
    (hv : vendor (tokenOutbound apiKey userId) = .reply status data)
    (hok : 200 ≤ status ∧ status < 300)
    (htok : jsonGet data "token" = some tok) :
    (getJwtTokenHandler apiKey userId vendor req).1 =
      { status := 200, headers := [], body := .json (.obj [("token", tok)]) } := by
  simp [getJwtTokenHandler, hv, axiosResult, hok, htok, objDropUndefined]

/-- Witness for C4: a vendor answering 200 with `token: "jwt-abc"`. -/
theorem jwt_token_passthrough_witness :
    jsonGet (.obj [("token", .str "jwt-abc")]) "token" = some (.str "jwt-abc") ∧
    (getJwtTokenHandler "k" "u"
        (fun _ => .reply 200 (.obj [("token", .str "jwt-abc")]))
        { method := "GET", connectionId := none, body := .null }).1 =
      { status := 200, headers := [], body := .json (.obj [("token", .str "jwt-abc")]) } :=
  ⟨rfl,
   jwt_token_passthrough "k" "u"
     (fun _ => .reply 200 (.obj [("token", .str "jwt-abc")]))
     { method := "GET", connectionId := none, body := .null }
     200 (.obj [("token", .str "jwt-abc")]) (.str "jwt-abc")
     rfl (by decide) rfl⟩

/-- Claim C5 counterexample: a vendor reply that is malformed by lacking
the `token` field — here a 2xx reply with an empty object body — does not
produce the generic 500: the handler answers 200 (the serialised body is
`.obj []`, i.e. the empty JSON object, because `token: undefined` is
dropped). -/
theorem jwt_malformed_success_not_500 :
    jsonGet (Json.obj []) "token" = none ∧
    (getJwtTokenHandler "k" "u" (fun _ => .reply 200 (.obj []))
        { method := "GET", connectionId := none, body := .null }).1 =
      { status := 200, headers := [], body := .json (.obj []) } ∧
    (getJwtTokenHandler "k" "u" (fun _ => .reply 200 (.obj []))
        { method := "GET", connectionId := none, body := .null }).1.status ≠ 500 :=
  ⟨rfl, rfl, by decide⟩

/-- Claim C5 as amended: vendor unreachable and vendor non-success status
both collapse to the single generic 500 error response; but a successful
(2xx) vendor reply whose body lacks the `token` field is not detected — it
yields 200 with the `token` field absent from the serialised body. -/
theorem jwt_error_collapse (apiKey userId : String)
    (vendor : AxiosReq → VendorOutcome) (req : ApiRequest) :
    (vendor (tokenOutbound apiKey userId) = .networkError →
      (getJwtTokenHandler apiKey userId vendor req).1 = tokenErrorResponse) ∧
    (∀ status data, vendor (tokenOutbound apiKey userId) = .reply status data →
      ¬(200 ≤ status ∧ status < 300) →
      (getJwtTokenHandler apiKey userId vendor req).1 = tokenErrorResponse) ∧
    (∀ status data, vendor (tokenOutbound apiKey userId) = .reply status data →
      (200 ≤ status ∧ status < 300) → jsonGet data "token" = none →
      (getJwtTokenHandler apiKey userId vendor req).1 =
        { status := 200, headers := [], body := .json (.obj []) }) := by
  refine ⟨fun hv => ?_, fun status data hv hbad => ?_, fun status data hv hok hmiss => ?_⟩
  · simp [getJwtTokenHandler, hv, axiosResult]
  · simp [getJwtTokenHandler, hv, axiosResult, hbad]
  · simp [getJwtTokenHandler, hv, axiosResult, hok, hmiss, objDropUndefined]

/-- Witness for the amended C5: all three scenarios at concrete vendors —
transport failure, a 404 reply, and a 2xx reply lacking the token field. -/
theorem jwt_error_collapse_witness :
    (getJwtTokenHandler "k" "u" (fun _ => .networkError)
        { method := "GET", connectionId := none, body := .null }).1 = tokenErrorResponse ∧
    (getJwtTokenHandler "k" "u" (fun _ => .reply 404 (.str "missing"))
        { method := "GET", connectionId := none, body := .null }).1 = tokenErrorResponse ∧
    (getJwtTokenHandler "k" "u" (fun _ => .reply 200 (.obj [("user", .str "u")]))
        { method := "GET", connectionId := none, body := .null }).1 =
      { status := 200, headers := [], body := .json (.obj []) } :=
  ⟨(jwt_error_collapse "k" "u" (fun _ => .networkError)
      { method := "GET", connectionId := none, body := .null }).1 rfl,
   (jwt_error_collapse "k" "u" (fun _ => .reply 404 (.str "missing"))
      { method := "GET", connectionId := none, body := .null }).2.1
      404 (.str "missing") rfl (by decide),
   (jwt_error_collapse "k" "u" (fun _ => .reply 200 (.obj [("user", .str "u")]))
      { method := "GET", connectionId := none, body := .null }).2.2
      200 (.obj [("user", .str "u")]) rfl (by decide) rfl⟩

/-- Claim C6 counterexample: a vendor-side malformed-JSON body on a 2xx
reply (axios silently keeps the raw string) is not mapped to 500: the GET
handler forwards it verbatim with status 200. -/
theorem contacts_malformed_json_not_500 :
    (contactsHandler "k" (fun _ => .reply 200 (.str "<!doctype html>"))
        { method := "GET", connectionId := some "c1", body := .null }).1 =
      { status := 200, headers := [], body := .json (.str "<!doctype html>") } ∧
    (contactsHandler "k" (fun _ => .reply 200 (.str "<!doctype html>"))
        { method := "GET", connectionId := some "c1", body := .null }).1.status ≠ 500 :=
  ⟨rfl, by decide⟩

/-- Claim C6 as amended: every axios rejection (network failure or a
non-2xx vendor status) during a GET or POST with a non-empty connection id
yields the fixed generic 500 body naming only the failed intent — a closed
constant, hence independent of the stored API key and of the raw vendor
error body; but a 2xx vendor reply is echoed verbatim even when its body
is malformed. -/
theorem contacts_vendor_error_500 (apiKey cid : String)
    (vendor : AxiosReq → VendorOutcome) (reqBody : Json) (hcid : cid ≠ "") :
    (axiosResult (vendor (contactsGetOutbound apiKey cid)) = .error () →
      contactsHandler apiKey vendor { method := "GET", connectionId := some cid, body := reqBody } =
        (fetchErrorResponse, [contactsGetOutbound apiKey cid])) ∧
    (axiosResult (vendor (contactsPostOutbound apiKey cid reqBody)) = .error () →
      contactsHandler apiKey vendor { method := "POST", connectionId := some cid, body := reqBody } =
        (createErrorResponse, [contactsPostOutbound apiKey cid reqBody])) ∧
    fetchErrorResponse =
      { status := 500, headers := [],
        body := .json (.obj [("error", .str "Error fetching contacts")]) } ∧
    createErrorResponse =
      { status := 500, headers := [],
        body := .json (.obj [("error", .str "Error creating contact")]) } := by
  refine ⟨fun hv => ?_, fun hv => ?_, rfl, rfl⟩
  · simp [contactsHandler, hcid, hv]
  · simp [contactsHandler, hcid, hv]

/-- Witness for the amended C6: a transport failure on GET and a 500
vendor reply on POST, at a concrete connection id. -/
theorem contacts_vendor_error_500_witness :
    ("c1" : String) ≠ "" ∧
    contactsHandler "k" (fun _ => .networkError)
        { method := "GET", connectionId := some "c1", body := .null } =
      (fetchErrorResponse, [contactsGetOutbound "k" "c1"]) ∧
    contactsHandler "k" (fun _ => .reply 500 (.str "vendor stack trace"))
        { method := "POST", connectionId := some "c1", body := .obj [("firstName", .str "Ada")] } =
      (createErrorResponse, [contactsPostOutbound "k" "c1" (.obj [("firstName", .str "Ada")])]) :=
  ⟨by decide,
   (contacts_vendor_error_500 "k" "c1" (fun _ => .networkError) .null (by decide)).1 rfl,
   (contacts_vendor_error_500 "k" "c1" (fun _ => .reply 500 (.str "vendor stack trace"))
      (.obj [("firstName", .str "Ada")]) (by decide)).2.1 rfl⟩

/-- Claim C7: with a connection id present, a successful create resets both
form fields to the empty string; a failed create leaves both fields at
their prior values; and a failed fetch in the listing view leaves the
stored contacts unchanged. -/
theorem shell_failure_preserves_state (connectionId : String)
    (gateway : AxiosReq → VendorOutcome)
    (s : CreateContactState) (ls : ContactListState) (hcid : connectionId ≠ "") :
    (∀ d, axiosResult (gateway (createContactRequest connectionId s)) = .ok d →
      (handleSubmit connectionId gateway s).1 = { firstName := "", lastName := "" }) ∧
    (axiosResult (gateway (createContactRequest connectionId s)) = .error () →
      (handleSubmit connectionId gateway s).1 = s) ∧
    (axiosResult (gateway (listContactsRequest connectionId)) = .error () →
      (fetchContacts connectionId gateway ls).1.contacts = ls.contacts) := by
  refine ⟨fun d hg => ?_, fun hg => ?_, fun hg => ?_⟩
  · simp [handleSubmit, hcid, hg]
  · simp [handleSubmit, hcid, hg]
  · simp [fetchContacts, hcid, hg]

/-- Witness for C7: a concrete connection id, a succeeding gateway for the
reset case and a failing gateway for the two preservation cases. -/
theorem shell_failure_preserves_state_witness :
    ("c1" : String) ≠ "" ∧
    (handleSubmit "c1" (fun _ => .reply 200 (.obj []))
        { firstName := "Ada", lastName := "Lovelace" }).1 =
      { firstName := "", lastName := "" } ∧
    (handleSubmit "c1" (fun _ => .networkError)
        { firstName := "Ada", lastName := "Lovelace" }).1 =
      { firstName := "Ada", lastName := "Lovelace" } ∧
    (fetchContacts "c1" (fun _ => .networkError)
        { contacts := some (.arr [.str "existing"]), isLoading := false }).1.contacts =
      some (.arr [.str "existing"]) :=
  ⟨by decide,
   (shell_failure_preserves_state "c1" (fun _ => .reply 200 (.obj []))
      { firstName := "Ada", lastName := "Lovelace" }
      { contacts := some (.arr [.str "existing"]), isLoading := false }
      (by decide)).1 (.obj []) rfl,
   (shell_failure_preserves_state "c1" (fun _ => .networkError)
      { firstName := "Ada", lastName := "Lovelace" }
      { contacts := some (.arr [.str "existing"]), isLoading := false }
      (by decide)).2.1 rfl,
   (shell_failure_preserves_state "c1" (fun _ => .networkError)
      { firstName := "Ada", lastName := "Lovelace" }
      { contacts := some (.arr [.str "existing"]), isLoading := false }
      (by decide)).2.2 rfl⟩

/-- Claim C8: while no connection identifier is held (the shell state is
the initial empty string), the shell does not even mount the listing view,
the listing view renders the "complete Step 1" prompt in every state, and
`fetchContacts` performs no network call and changes nothing. -/
theorem listing_inactive_without_connection
    (gateway : AxiosReq → VendorOutcome) (s : ContactListState) :
    homeMountsContactList "" = false ∧
    renderContactList "" s = .prompt ∧
    fetchContacts "" gateway s = (s, []) := by
  refine ⟨rfl, rfl, ?_⟩
  simp [fetchContacts]

end AlloyCrm
